import Mathlib

/-!
Verification development for the RnnDataProcesor ETL pipeline.

The Python sources are embedded shallowly:
* `src/procesador_rnn.py` — wide-to-long conversion of the potato-yield
  spreadsheet (a module-level script);
* `src/procesador_datos_atmosfericos.py` — per-file atmospheric parser
  (`_leer_archivo`) and batch loader (`procesar_todos`);
* `src/pipeline_procesamiento.py` — quality report
  (`generar_reporte_calidad`).

Modelling conventions: numeric cell values are rationals (`ℚ`); missing
cells are `Option`s or an explicit null constructor; a pandas DataFrame is
a list of rows; a text file is a list of its lines (without trailing
newlines); `None`-with-logged-reason returns become `Except` values whose
error constructor records the reason that the code logs.
-/

/-! ## Character-level string operations

The Python `str` methods used by the sources (`strip`, `upper`,
`startswith`, `endswith`, splitting on a separator) are embedded as
structurally recursive functions on `List Char`, so that every definition
evaluates inside the kernel.  Only ASCII text occurs in the repository's
identifiers, so ASCII semantics suffice. -/

/-- Whitespace as stripped by Python's `str.strip()` (ASCII subset). -/
def esEspacio (c : Char) : Bool :=
  c = ' ' || c = '\t' || c = '\n' || c = '\r'

/-- Python `str.strip()`: remove leading and trailing whitespace. -/
def recorta (s : String) : String :=
  ⟨((s.data.dropWhile esEspacio).reverse.dropWhile esEspacio).reverse⟩

/-- Uppercase one ASCII character, identity elsewhere (Python `str.upper`
restricted to ASCII). -/
def mayuscula (c : Char) : Char :=
  if 'a' ≤ c && c ≤ 'z' then Char.ofNat (c.toNat - 32) else c

/-- Python `str.upper()` (ASCII subset). -/
def aMayusculas (s : String) : String :=
  ⟨s.data.map mayuscula⟩

/-- Does the first character list start with the second one? -/
def comienzaCon : List Char → List Char → Bool
  | _, [] => true
  | [], _ :: _ => false
  | c :: cs, p :: ps => c = p && comienzaCon cs ps

/-- Python `str.startswith(pre)`. -/
def empiezaCon (s pre : String) : Bool :=
  comienzaCon s.data pre.data

/-- Python `str.endswith(suf)`. -/
def terminaCon (s suf : String) : Bool :=
  comienzaCon s.data.reverse suf.data.reverse

/-- Split a character list at every occurrence of `sep` (Python
`str.split(sep)` for a one-character separator, as used for CSV cells). -/
def divideAux (sep : Char) : List Char → List Char → List String
  | [], acc => [⟨acc.reverse⟩]
  | c :: resto, acc =>
    if c = sep then ⟨acc.reverse⟩ :: divideAux sep resto []
    else divideAux sep resto (c :: acc)

/-- Split a string on a one-character separator. -/
def divide (s : String) (sep : Char) : List String :=
  divideAux sep s.data []

/-! ## Wide-to-long yield conversion (`src/procesador_rnn.py`) -/

/-- The month-name list `meses = ['enero', ..., 'diciembre']`. -/
def meses : List String :=
  ["enero", "febrero", "marzo", "abril", "mayo", "junio",
   "julio", "agosto", "septiembre", "octubre", "noviembre", "diciembre"]

/-- The column label `f'{mes}-produccion'`. -/
def claveProd (mes : String) : String := mes ++ "-produccion"

/-- The column label `f'{mes}-area'`. -/
def claveArea (mes : String) : String := mes ++ "-area"

/-- One labelled dictionary entry, present when the guarded index was in
range (`if i * 2 < len(valores)` / `if i * 2 + 1 < len(valores)`). -/
def entradaOpc (etiqueta : String) : Option ℚ → List (String × ℚ)
  | some v => [(etiqueta, v)]
  | none => []

/-- The `for i, mes in enumerate(meses)` loop of the script: month `i`
contributes `valores[i*2]` as its `produccion` entry when that index is in
range, then `valores[i*2+1]` as its `area` entry when in range.  The
resulting association list models the insertion-ordered `fila_resultado`
dictionary (its keys are pairwise distinct labels). -/
def entradasLoop (ms : List String) (valores : List ℚ) : List (String × ℚ) :=
  (List.range ms.length).flatMap (fun i =>
    entradaOpc (claveProd (ms.getD i "")) valores[2 * i]? ++
    entradaOpc (claveArea (ms.getD i "")) valores[2 * i + 1]?)

/-- Processing of one spreadsheet row: `fila.iloc[1:].dropna().tolist()`
(drop the null cells anywhere in the row, keep order) followed by the
month loop. -/
def filaResultado (celdas : List (Option ℚ)) : List (String × ℚ) :=
  entradasLoop meses (celdas.filterMap id)

/-- One wide input row: first column (region name) then the data cells. -/
structure FilaAncha where
  region : String
  celdas : List (Option ℚ)
deriving DecidableEq

/-- The whole script on an in-memory table:
`df[df[primera_columna] == 'Turrialba']` keeps exactly the rows whose
first column equals the literal `'Turrialba'`, and each kept row is
emitted with the literal region value `'Turrialba'`
(`fila_resultado[primera_columna] = 'Turrialba'`) plus its data entries.
No trimming or case conversion is applied on this side. -/
def procesarPapa (tabla : List FilaAncha) : List (String × List (String × ℚ)) :=
  (tabla.filter (fun f => f.region == "Turrialba")).map
    (fun f => ("Turrialba", filaResultado f.celdas))

/-! Specification-side view of the pairing, used to compare the loop with
the spec's "consume the values two at a time" description. -/

/-- Consume a value list two at a time: each step yields a
`(produccion, area)` pair; a final unpaired value yields a pair with no
area component. -/
def paresDosEnDos : List ℚ → List (Option ℚ × Option ℚ)
  | [] => []
  | [p] => [(some p, none)]
  | p :: a :: resto => (some p, some a) :: paresDosEnDos resto

/-- Flatten a list of months paired with `(produccion, area)` pairs into
labelled entries, month by month. -/
def entradasDePares : List String → List (Option ℚ × Option ℚ) → List (String × ℚ)
  | _, [] => []
  | [], _ :: _ => []
  | m :: ms, (p, a) :: resto =>
    entradaOpc (claveProd m) p ++ entradaOpc (claveArea m) a ++
    entradasDePares ms resto

/-- Region normalization on the atmospheric side:
`canton.strip().upper()` (line 97 of `procesador_datos_atmosfericos.py`). -/
def normalizaCanton (canton : String) : String :=
  aMayusculas (recorta canton)

/-! ## Atmospheric file parser (`src/procesador_datos_atmosfericos.py`) -/

/-- The literal header marker `"PARAMETER,YEAR"`. -/
def marcador : String := "PARAMETER,YEAR"

/-- Is a raw line the header line?  `linea.strip().startswith("PARAMETER,YEAR")`. -/
def esEncabezado (linea : String) : Bool :=
  empiezaCon (recorta linea) marcador

/-- Index of the first element satisfying the test, scanning from the top
(the `for i, linea in enumerate(lineas): ... break` loop). -/
def buscaIndice (p : String → Bool) : List String → Option ℕ
  | [] => none
  | l :: ls => if p l then some 0 else (buscaIndice p ls).map (· + 1)

/-- `indice_inicio`: index of the first header line, if any. -/
def indiceInicio (lineas : List String) : Option ℕ :=
  buscaIndice esEncabezado lineas

/-- The twelve month column names. -/
def mesesAtmos : List String :=
  ["JAN", "FEB", "MAR", "APR", "MAY", "JUN",
   "JUL", "AUG", "SEP", "OCT", "NOV", "DEC"]

/-- `columnas_necesarias`. -/
def columnasNecesarias : List String :=
  ["PARAMETER", "YEAR"] ++ mesesAtmos

/-- Column header parsed by `pd.read_csv(ruta, skiprows=indice_inicio)`:
the comma-separated cells of line `i`. -/
def encabezadoEn (lineas : List String) (i : ℕ) : List String :=
  divide (lineas.getD i "") ','

/-- Data rows parsed by `read_csv`: the lines after line `i`, blank lines
skipped (`skip_blank_lines` default), split into cells. -/
def filasEn (lineas : List String) (i : ℕ) : List (List String) :=
  ((lineas.drop (i + 1)).filter (fun l => !(l == ""))).map (fun l => divide l ',')

/-- `columnas_faltantes`: the required columns absent from the header. -/
def faltantesEn (lineas : List String) (i : ℕ) : List String :=
  columnasNecesarias.filter (fun c => !((encabezadoEn lineas i).contains c))

/-- The cell of a parsed row under a named column; a row shorter than the
header reads as an empty cell (pandas fills `NaN` there). -/
def celda (encabezado fila : List String) (col : String) : String :=
  match encabezado.indexOf? col with
  | some j => fila.getD j ""
  | none => ""

/-- ASCII digit test. -/
def esDigito (c : Char) : Bool := '0' ≤ c && c ≤ '9'

/-- Value of an ASCII digit. -/
def valorDigito (c : Char) : ℕ := c.toNat - 48

/-- A nonempty all-digit character list read as a natural number. -/
def natDeDigitos (cs : List Char) : Option ℕ :=
  if cs = [] then none
  else if cs.all esDigito then some (cs.foldl (fun n c => 10 * n + valorDigito c) 0)
  else none

/-- `pd.to_numeric(valor, errors='coerce')` on one cell: an optional sign
and a plain decimal numeral parse to a rational; anything else coerces to
null.  (The model covers the numeral forms occurring in the data; pandas
additionally accepts exponent forms.) -/
def aNumerico (s : String) : Option ℚ :=
  let t := recorta s
  let neg : Bool := empiezaCon t "-"
  let resto : String := if empiezaCon t "-" || empiezaCon t "+" then ⟨t.data.drop 1⟩ else t
  let q? : Option ℚ :=
    match divide resto '.' with
    | [ent] => (natDeDigitos ent.data).map (fun n => (n : ℚ))
    | [ent, fr] =>
      match natDeDigitos ent.data, natDeDigitos fr.data with
      | some n, some f => some ((n : ℚ) + (f : ℚ) / (10 : ℚ) ^ fr.data.length)
      | _, _ => none
    | _ => none
  q?.map (fun q => if neg then -q else q)

/-- One melted long-form measurement: a row of `df_largo`, with its value
already coerced numerically (the `pd.to_numeric` line is applied to the
whole value column right after the melt, so it is fused into the row
construction here). -/
structure Medicion where
  parameter : String
  year : String
  mes : String
  valor : Option ℚ
deriving DecidableEq

/-- The melted measurement contributed by one parsed row for one month. -/
def medicionDe (encabezado : List String) (mes : String) (fila : List String) : Medicion :=
  { parameter := celda encabezado fila "PARAMETER"
    year := celda encabezado fila "YEAR"
    mes := mes
    valor := aNumerico (celda encabezado fila mes) }

/-- `df.melt(id_vars=["PARAMETER","YEAR"], value_vars=[the 12 months],
var_name="mes", value_name="valor")`: one entry per (month, row), stacked
month block by month block. -/
def derretir (encabezado : List String) (filas : List (List String)) : List Medicion :=
  mesesAtmos.flatMap (fun mes => filas.map (medicionDe encabezado mes))

/-- The non-null values of one `(YEAR, mes, PARAMETER)` group
(`pivot_table`'s `mean` aggregates a group's non-null entries). -/
def grupoVals (largo : List Medicion) (anio mes param : String) : List ℚ :=
  largo.filterMap (fun m =>
    if m.year = anio ∧ m.mes = mes ∧ m.parameter = param then m.valor else none)

/-- Arithmetic mean of a value list, `none` when the list is empty. -/
def media (l : List ℚ) : Option ℚ :=
  match l with
  | [] => none
  | _ => some (l.sum / l.length)

/-- The pivot's parameter columns: distinct `PARAMETER`s having at least
one non-null value (`pivot_table`'s default `dropna=True` drops all-null
columns).  pandas sorts the columns; no claim depends on the column
order, so an arbitrary duplicate-free order (`List.dedup`) is used. -/
def parametros (largo : List Medicion) : List String :=
  ((largo.filter (fun m => m.valor.isSome)).map (fun m => m.parameter)).dedup

/-- The pivot's index: the distinct `(YEAR, mes)` pairs of the melted
table, one row each (pandas sorts the index; no claim depends on the row
order, so an arbitrary duplicate-free order is used). -/
def paresIndice (largo : List Medicion) : List (String × String) :=
  (largo.map (fun m => (m.year, m.mes))).dedup

/-- One row of the pivoted, canton-tagged table `df_pivoteado` (after
`reset_index`, the `canton` column and the `YEAR → anio` rename). -/
structure FilaPivote where
  anio : String
  mes : String
  canton : String
  celdas : List (String × Option ℚ)
deriving DecidableEq

/-- `df_largo.pivot_table(index=["YEAR","mes"], columns="PARAMETER",
values="valor", aggfunc='mean').reset_index()`, plus the canton tag. -/
def pivotear (largo : List Medicion) (canton : String) : List FilaPivote :=
  (paresIndice largo).map (fun par =>
    { anio := par.1
      mes := par.2
      canton := canton
      celdas := (parametros largo).map (fun q =>
        (q, media (grupoVals largo par.1 par.2 q))) })

/-- The reasons `_leer_archivo` logs before returning `None`. -/
inductive FalloParse
  | encabezadoFaltante
  | tablaVacia
  | columnasFaltantes (faltantes : List String)
deriving DecidableEq

/-- `_leer_archivo` from the located header line onward: `read_csv`, the
`df.empty` check, the required-columns check, melt, numeric coercion,
pivot, canton tag.  The checks happen in the source's order: emptiness
first, then the columns. -/
def procesaDesdeIndice (lineas : List String) (canton : String) (i : ℕ) :
    Except FalloParse (List FilaPivote) :=
  if filasEn lineas i = [] then .error .tablaVacia
  else if faltantesEn lineas i = [] then
    .ok (pivotear (derretir (encabezadoEn lineas i) (filasEn lineas i))
      (normalizaCanton canton))
  else .error (.columnasFaltantes (faltantesEn lineas i))

/-- `_leer_archivo(ruta, canton)` on the file's lines: locate the header,
then process; a `None` return with a logged reason is modelled as the
corresponding error value. -/
def leerArchivo (lineas : List String) (canton : String) :
    Except FalloParse (List FilaPivote) :=
  match indiceInicio lineas with
  | none => .error .encabezadoFaltante
  | some i => procesaDesdeIndice lineas canton i

/-! ## Batch loader (`procesar_todos`) -/

/-- The two `ValueError`s `procesar_todos` raises. -/
inductive FalloBatch
  | sinArchivos
  | sinDatos
deriving DecidableEq

/-- `f.endswith(".csv")`. -/
def esCsv (nombre : String) : Bool := terminaCon nombre ".csv"

/-- `os.path.splitext(archivo)[0]` on a bare file name: cut at the last
dot, unless every character before that dot is itself a dot (then the name
has no extension, per Python's `splitext`). -/
def splitextBase (s : String) : String :=
  match s.data.reverse.findIdx? (fun c => c = '.') with
  | none => s
  | some r =>
    let d := s.data.length - 1 - r
    if (s.data.take d).all (fun c => c = '.') then s else ⟨s.data.take d⟩

/-- The `.csv` entries of the source folder; a folder is modelled as a
list of (file name, file lines) pairs, in discovery order. -/
def archivosCsv (archivos : List (String × List String)) : List (String × List String) :=
  archivos.filter (fun a => esCsv a.1)

/-- `df_final`: the successfully parsed per-file tables, in discovery
order, each parsed with the canton taken from the file's base name. -/
def tablasValidas (archivos : List (String × List String)) : List (List FilaPivote) :=
  (archivosCsv archivos).filterMap (fun a => (leerArchivo a.2 (splitextBase a.1)).toOption)

/-- `procesar_todos` (without the optional CSV write): list the `.csv`
files, raise if there are none; parse each, collect the successes, raise
if there are none; concatenate them (`pd.concat(df_final)`). -/
def procesarTodos (archivos : List (String × List String)) :
    Except FalloBatch (List FilaPivote) :=
  if archivosCsv archivos = [] then .error .sinArchivos
  else if tablasValidas archivos = [] then .error .sinDatos
  else .ok (tablasValidas archivos).flatten

/-! ## Demonstration inputs used by concrete witnesses -/

/-- A well-formed atmospheric file: preamble, header, one data row. -/
def lineasDemo : List String :=
  ["preamble junk", "", "PARAMETER,YEAR,JAN,FEB,MAR,APR,MAY,JUN,JUL,AUG,SEP,OCT,NOV,DEC",
   "T2M,2020,1,2,3,4,5,6,7,8,9,10,11,12"]

/-- A source folder holding one well-formed `.csv` file. -/
def archivosDemo : List (String × List String) := [("cartago.csv", lineasDemo)]

/-! ## Quality report (`src/pipeline_procesamiento.py`, `generar_reporte_calidad`) -/

/-- One cell of the final merged table: null, a number, or text (the
`canton` and `mes` columns hold text). -/
inductive Celda
  | nulo
  | numero (q : ℚ)
  | texto (s : String)
deriving DecidableEq

/-- `isnull` on one cell. -/
def esNulo : Celda → Bool
  | .nulo => true
  | _ => false

/-- The final merged DataFrame: named columns and rows of cells. -/
structure TablaFinal where
  columnas : List String
  filas : List (List Celda)

/-- `len(df_final)`. -/
def totalFilas (t : TablaFinal) : ℕ := t.filas.length

/-- `len(df_final.columns)`. -/
def totalColumnas (t : TablaFinal) : ℕ := t.columnas.length

/-- `df_final.isnull().sum().sum()`. -/
def valoresFaltantes (t : TablaFinal) : ℕ :=
  (t.filas.map (fun fila => (fila.filter esNulo).length)).sum

/-- One named column's cells (empty when the column is absent). -/
def columnaDe (t : TablaFinal) (nombre : String) : List Celda :=
  match t.columnas.indexOf? nombre with
  | some j => t.filas.map (fun fila => fila.getD j Celda.nulo)
  | none => []

/-- `df_final[nombre].nunique() if nombre in df_final.columns else 0`:
the count of distinct non-null values of the column. -/
def nUnicos (t : TablaFinal) (nombre : String) : ℕ :=
  (((columnaDe t nombre).filter (fun c => !(esNulo c))).dedup).length

/-- `(1 - missing/(rows*cols)) * 100`, in exact rational arithmetic.  (The
Python code computes the quotient in floating point; on a non-empty table
the two agree.  On an empty table neither raises: Lean's rational division
by zero is zero, while numpy's scalar division by zero yields a non-finite
float, so claims about the completeness value are stated for non-empty
tables only.) -/
def porcentajeCompletitud (t : TablaFinal) : ℚ :=
  (1 - ((valoresFaltantes t : ℚ) / ((totalFilas t : ℚ) * (totalColumnas t : ℚ)))) * 100

/-- The quality report dictionary. -/
structure Reporte where
  totalFilas : ℕ
  totalColumnas : ℕ
  cantonesUnicos : ℕ
  aniosUnicos : ℕ
  mesesUnicos : ℕ
  valoresFaltantes : ℕ
  porcentajeCompletitud : ℚ
deriving DecidableEq

/-- The `try` body of `generar_reporte_calidad`. -/
def generarReporteCalidad (t : TablaFinal) : Reporte :=
  { totalFilas := totalFilas t
    totalColumnas := totalColumnas t
    cantonesUnicos := nUnicos t "canton"
    aniosUnicos := nUnicos t "anio"
    mesesUnicos := nUnicos t "mes"
    valoresFaltantes := valoresFaltantes t
    porcentajeCompletitud := porcentajeCompletitud t }

/-- A one-row merged table with one missing cell out of four. -/
def tablaDemo : TablaFinal :=
  { columnas := ["canton", "anio", "mes", "T2M"]
    filas := [[Celda.texto "TURRIALBA", Celda.numero 2020, Celda.texto "JAN", Celda.nulo]] }

/-! ## Helper lemmas about the yield conversion -/

theorem entradasLoop_eq_pares (ms : List String) :
    ∀ valores : List ℚ, valores.length ≤ 2 * ms.length →
      entradasLoop ms valores = entradasDePares ms (paresDosEnDos valores) := by
  induction ms with
  | nil =>
    intro valores h
    simp only [List.length_nil, Nat.mul_zero, Nat.le_zero, List.length_eq_zero] at h
    subst h
    simp [entradasLoop, paresDosEnDos, entradasDePares]
  | cons m ms ih =>
    intro valores h
    have hcab : entradasLoop (m :: ms) valores =
        (entradaOpc (claveProd m) valores[0]? ++ entradaOpc (claveArea m) valores[1]?) ++
          (List.range ms.length).flatMap (fun i =>
            entradaOpc (claveProd ((m :: ms).getD (i + 1) "")) valores[2 * (i + 1)]? ++
            entradaOpc (claveArea ((m :: ms).getD (i + 1) "")) valores[2 * (i + 1) + 1]?) := by
      rw [entradasLoop, List.length_cons, List.range_succ_eq_map, List.flatMap_cons,
        List.flatMap_map]
      rfl
    match valores with
    | [] =>
      simp [entradasLoop, paresDosEnDos, entradasDePares, entradaOpc]
    | [p] =>
      rw [hcab]
      have hresto : ∀ i : ℕ, entradaOpc (claveProd ((m :: ms).getD (i + 1) ""))
            (([p] : List ℚ))[2 * (i + 1)]? ++
          entradaOpc (claveArea ((m :: ms).getD (i + 1) "")) (([p] : List ℚ))[2 * (i + 1) + 1]? =
            [] := by
        intro i
        have h1 : (([p] : List ℚ))[2 * (i + 1)]? = none :=
          List.getElem?_eq_none (by simp only [List.length_cons, List.length_nil]; omega)
        have h2 : (([p] : List ℚ))[2 * (i + 1) + 1]? = none :=
          List.getElem?_eq_none (by simp only [List.length_cons, List.length_nil]; omega)
        rw [h1, h2]; rfl
      simp only [hresto, List.flatMap_eq_nil_iff]
      simp [paresDosEnDos, entradasDePares, entradaOpc]
    | p :: a :: resto =>
      rw [hcab]
      have hlen : resto.length ≤ 2 * ms.length := by
        simp only [List.length_cons] at h; omega
      have hresto : (List.range ms.length).flatMap (fun i =>
            entradaOpc (claveProd ((m :: ms).getD (i + 1) "")) (p :: a :: resto)[2 * (i + 1)]? ++
            entradaOpc (claveArea ((m :: ms).getD (i + 1) "")) (p :: a :: resto)[2 * (i + 1) + 1]?) =
          entradasLoop ms resto := by
        rw [entradasLoop]
        apply List.flatMap_congr
        intro i hi
        have e1 : (2 * (i + 1)) = (2 * i) + 1 + 1 := by omega
        rw [e1]
        simp [List.getD_cons_succ, List.getElem?_cons_succ]
      rw [hresto, ih resto hlen]
      simp [paresDosEnDos, entradasDePares]

theorem paresDosEnDos_length (valores : List ℚ) :
    (paresDosEnDos valores).length = (valores.length + 1) / 2 := by
  induction valores using paresDosEnDos.induct with
  | case1 => simp [paresDosEnDos]
  | case2 p => simp [paresDosEnDos]
  | case3 p a resto ih =>
    simp only [paresDosEnDos, List.length_cons, ih]
    omega

theorem paresDosEnDos_impar (valores : List ℚ) (h : valores.length % 2 = 1) :
    ∃ v, (paresDosEnDos valores).getLast? = some (some v, none) := by
  induction valores using paresDosEnDos.induct with
  | case1 => simp at h
  | case2 p => exact ⟨p, rfl⟩
  | case3 p a resto ih =>
    simp only [List.length_cons] at h
    obtain ⟨v, hv⟩ := ih (by omega)
    refine ⟨v, ?_⟩
    rw [paresDosEnDos, List.getLast?_cons, hv]
    simp

/-! ## Helper lemmas about the header scan -/

theorem buscaIndice_eq_none (p : String → Bool) (ls : List String) :
    buscaIndice p ls = none ↔ ∀ l ∈ ls, p l = false := by
  induction ls with
  | nil => simp [buscaIndice]
  | cons l ls ih =>
    by_cases hl : p l
    · simp [buscaIndice, hl]
    · simp [buscaIndice, hl, ih]

theorem buscaIndice_eq_some (p : String → Bool) :
    ∀ (ls : List String) (i : ℕ), buscaIndice p ls = some i →
      p (ls.getD i "") = true ∧ ∀ j < i, p (ls.getD j "") = false := by
  intro ls
  induction ls with
  | nil => intro i h; simp [buscaIndice] at h
  | cons l ls ih =>
    intro i h
    by_cases hl : p l
    · simp only [buscaIndice, if_pos hl, Option.some.injEq] at h
      subst h
      exact ⟨hl, by omega⟩
    · simp only [buscaIndice, if_neg hl, Option.map_eq_some'] at h
      obtain ⟨k, hk, rfl⟩ := h
      obtain ⟨h1, h2⟩ := ih k hk
      refine ⟨by simpa using h1, ?_⟩
      intro j hj
      cases j with
      | zero => simpa using hl
      | succ j =>
        simp only [List.getD_cons_succ]
        exact h2 j (by omega)

/-! ## Helper lemmas about the batch loader -/

theorem toOption_eq_some {ε α : Type} (e : Except ε α) (x : α) :
    e.toOption = some x ↔ e = Except.ok x := by
  cases e <;> simp [Except.toOption]

theorem leerArchivo_canton (lineas : List String) (canton : String)
    (tabla : List FilaPivote) (h : leerArchivo lineas canton = Except.ok tabla) :
    ∀ fila ∈ tabla, fila.canton = normalizaCanton canton := by
  intro fila hf
  rw [leerArchivo] at h
  cases hidx : indiceInicio lineas with
  | none => rw [hidx] at h; simp at h
  | some i =>
    rw [hidx] at h
    simp only [procesaDesdeIndice] at h
    split_ifs at h
    simp only [Except.ok.injEq] at h
    subst h
    simp only [pivotear, List.mem_map] at hf
    obtain ⟨par, _, rfl⟩ := hf
    rfl

/-! ## Helper lemmas about melt and pivot -/

theorem grupoVals_append (l1 l2 : List Medicion) (anio mes param : String) :
    grupoVals (l1 ++ l2) anio mes param =
      grupoVals l1 anio mes param ++ grupoVals l2 anio mes param := by
  simp [grupoVals, List.filterMap_append]

theorem grupoVals_flatMap (ms : List String) (g : String → List Medicion)
    (anio mes param : String) :
    grupoVals (ms.flatMap g) anio mes param =
      ms.flatMap (fun x => grupoVals (g x) anio mes param) := by
  induction ms with
  | nil => simp [grupoVals]
  | cons x ms ih => simp [List.flatMap_cons, grupoVals_append, ih]

theorem grupoVals_bloque (encabezado : List String) (filas : List (List String))
    (mesBloque anio mes param : String) :
    grupoVals (filas.map (medicionDe encabezado mesBloque)) anio mes param =
      if mesBloque = mes then
        filas.filterMap (fun fila =>
          if celda encabezado fila "YEAR" = anio ∧ celda encabezado fila "PARAMETER" = param
          then aNumerico (celda encabezado fila mesBloque) else none)
      else [] := by
  rw [grupoVals, List.filterMap_map]
  by_cases hm : mesBloque = mes
  · subst hm
    rw [if_pos rfl]
    apply List.filterMap_congr
    intro fila _
    simp [medicionDe, Function.comp, and_assoc]
  · rw [if_neg hm, List.filterMap_eq_nil_iff]
    intro fila _
    simp [medicionDe, Function.comp, hm]

theorem flatMap_si_unico {α : Type} (ms : List String) (m : String)
    (L : String → List α) (hnd : ms.Nodup) (hm : m ∈ ms) :
    (ms.flatMap (fun x => if x = m then L x else [])) = L m := by
  induction ms with
  | nil => simp at hm
  | cons x ms ih =>
    rw [List.flatMap_cons]
    obtain ⟨hx, hnd2⟩ := List.nodup_cons.mp hnd
    by_cases hxm : x = m
    · subst hxm
      rw [if_pos rfl]
      have hresto : ms.flatMap (fun y => if y = x then L y else []) = [] := by
        rw [List.flatMap_eq_nil_iff]
        intro y hy
        rw [if_neg]
        intro he
        subst he
        exact hx hy
      rw [hresto, List.append_nil]
    · have hm2 : m ∈ ms := by
        rcases List.mem_cons.mp hm with h | h
        · exact absurd h.symm hxm
        · exact h
      rw [if_neg hxm, ih hnd2 hm2, List.nil_append]

theorem filterMap_clave_unica (encabezado : List String) (anio param : String)
    (F : List String → Option ℚ) :
    ∀ (filas : List (List String)), filas.Pairwise (fun f g =>
      ¬(celda encabezado f "PARAMETER" = celda encabezado g "PARAMETER" ∧
        celda encabezado f "YEAR" = celda encabezado g "YEAR")) →
    ∀ f ∈ filas, celda encabezado f "YEAR" = anio → celda encabezado f "PARAMETER" = param →
      filas.filterMap (fun g =>
        if celda encabezado g "YEAR" = anio ∧ celda encabezado g "PARAMETER" = param
        then F g else none) = (F f).toList := by
  intro filas
  induction filas with
  | nil => intro _ f hf; simp at hf
  | cons g resto ih =>
    intro hpw f hf hY hP
    obtain ⟨hg, hpw2⟩ := List.pairwise_cons.mp hpw
    rw [List.filterMap_cons]
    rcases List.mem_cons.mp hf with rfl | hf2
    · rw [if_pos ⟨hY, hP⟩]
      have hcola : resto.filterMap (fun x =>
          if celda encabezado x "YEAR" = anio ∧ celda encabezado x "PARAMETER" = param
          then F x else none) = [] := by
        rw [List.filterMap_eq_nil_iff]
        intro x hx
        rw [if_neg]
        intro ⟨hxY, hxP⟩
        exact hg x hx ⟨hP.trans hxP.symm, hY.trans hxY.symm⟩
      cases hFf : F f <;> simp [hFf, hcola]
    · rw [if_neg, ih hpw2 f hf2 hY hP]
      intro ⟨hgY, hgP⟩
      exact hg f hf2 ⟨hgP.trans hP.symm, hgY.trans hY.symm⟩

/-! ## Claims about the yield conversion and region normalization -/

/-- Claim C1, as stated, is false on the code: the claim says region
identifiers are normalized identically (trim + uppercase) on both the
yield side and the atmospheric side before the merge.  In fact only the
atmospheric side normalizes.  At the concrete input `"turrialba"`
(differing from `'Turrialba'` only in case) the yield script drops the row
entirely, while for the matching spelling it emits the literal
`"Turrialba"`, which differs from the atmospheric key
`normalizaCanton "Turrialba" = "TURRIALBA"`. -/
theorem c1_contraejemplo :
    procesarPapa [⟨"turrialba", [some 1]⟩] = [] ∧
    procesarPapa [⟨"Turrialba", [some 1]⟩] = [("Turrialba", filaResultado [some 1])] ∧
    normalizaCanton "Turrialba" = "TURRIALBA" ∧
    ("Turrialba" : String) ≠ "TURRIALBA" := by
  refine ⟨by decide, by decide, by decide, by decide⟩

/-- Claim C1 (amended): only the atmospheric side normalizes region
identifiers, mapping `" Turrialba "`, `"TURRIALBA"` and `"turrialba"` to
the common key `"TURRIALBA"`; the yield side selects rows by exact
equality with the literal `'Turrialba'` and emits that literal
unnormalized, so a region spelled `"turrialba"` produces no yield row at
all and the emitted yield key differs from the atmospheric one. -/
theorem c1_normalizacion_enmendada :
    normalizaCanton " Turrialba " = "TURRIALBA" ∧
    normalizaCanton "TURRIALBA" = "TURRIALBA" ∧
    normalizaCanton "turrialba" = "TURRIALBA" ∧
    (∀ tabla : List FilaAncha, ∀ r ∈ procesarPapa tabla, r.1 = "Turrialba") ∧
    procesarPapa [⟨"turrialba", [some 1]⟩] = [] ∧
    normalizaCanton "Turrialba" ≠ "Turrialba" := by
  refine ⟨by decide, by decide, by decide, ?_, by decide, by decide⟩
  intro tabla r hr
  simp only [procesarPapa, List.mem_map, List.mem_filter] at hr
  obtain ⟨f, _, rfl⟩ := hr
  rfl

/-- Witness for the amended claim C1 at a concrete table. -/
theorem c1_testigo :
    (("Turrialba", filaResultado [some 1]) : String × List (String × ℚ)).1 = "Turrialba" :=
  c1_normalizacion_enmendada.2.2.2.1 [⟨"Turrialba", [some 1]⟩]
    ("Turrialba", filaResultado [some 1]) (by decide)

/-- Claim C2: after the null cells are removed, the remaining values are
consumed two at a time — `valores[2i]` becomes month `i+1`'s production
entry and `valores[2i+1]` month `i+1`'s area entry, stopping when the
value sequence is exhausted — and a row with an odd number of values gives
its final month a production value and no area value.  Stated as: the
loop's output coincides with the two-at-a-time pairing of the null-free
value list, and an odd-length value list makes the final pair
production-only.  The hypothesis restricts to rows of the wide format
(at most 12 months' worth, i.e. 24 values); beyond that the loop would
stop at 12 months. -/
theorem c2_consumo_dos_en_dos (celdas : List (Option ℚ))
    (h : (celdas.filterMap id).length ≤ 2 * meses.length) :
    filaResultado celdas = entradasDePares meses (paresDosEnDos (celdas.filterMap id)) ∧
    ((celdas.filterMap id).length % 2 = 1 →
      ∃ v, (paresDosEnDos (celdas.filterMap id)).getLast? = some (some v, none)) :=
  ⟨entradasLoop_eq_pares meses _ h, fun hodd => paresDosEnDos_impar _ hodd⟩

/-- Witness for claim C2 at the concrete row
`[some 1, none, some 2, some 3]` (three non-null values, odd). -/
theorem c2_testigo :
    filaResultado [some 1, none, some 2, some 3] =
      entradasDePares meses
        (paresDosEnDos (([some 1, none, some 2, some 3] : List (Option ℚ)).filterMap id)) ∧
    ((([some 1, none, some 2, some 3] : List (Option ℚ)).filterMap id).length % 2 = 1 →
      ∃ v, (paresDosEnDos
          (([some 1, none, some 2, some 3] : List (Option ℚ)).filterMap id)).getLast? =
        some (some v, none)) :=
  c2_consumo_dos_en_dos [some 1, none, some 2, some 3] (by decide)

/-- Claim C3: for a valid wide row whose null-free value list has length
`N` (at most 24), the conversion produces exactly `⌈N/2⌉` month records —
the two-at-a-time pairs that the output flattens — and when `N` is odd the
last record has a production value and no area value. -/
theorem c3_conteo_registros (celdas : List (Option ℚ))
    (h : (celdas.filterMap id).length ≤ 2 * meses.length) :
    filaResultado celdas = entradasDePares meses (paresDosEnDos (celdas.filterMap id)) ∧
    (paresDosEnDos (celdas.filterMap id)).length = ((celdas.filterMap id).length + 1) / 2 ∧
    ((celdas.filterMap id).length % 2 = 1 →
      ∃ v, (paresDosEnDos (celdas.filterMap id)).getLast? = some (some v, none)) :=
  ⟨entradasLoop_eq_pares meses _ h, paresDosEnDos_length _,
    fun hodd => paresDosEnDos_impar _ hodd⟩

/-- Witness for claim C3 at a concrete row with five non-null values:
three records, the last production-only. -/
theorem c3_testigo :
    filaResultado [some 10, some 20, some 30, some 40, some 50] =
      entradasDePares meses
        (paresDosEnDos
          (([some 10, some 20, some 30, some 40, some 50] : List (Option ℚ)).filterMap id)) ∧
    (paresDosEnDos
        (([some 10, some 20, some 30, some 40, some 50] : List (Option ℚ)).filterMap id)).length =
      ((([some 10, some 20, some 30, some 40, some 50] : List (Option ℚ)).filterMap id).length
        + 1) / 2 ∧
    ((([some 10, some 20, some 30, some 40, some 50] : List (Option ℚ)).filterMap id).length % 2
        = 1 →
      ∃ v, (paresDosEnDos
          (([some 10, some 20, some 30, some 40, some 50] : List (Option ℚ)).filterMap
            id)).getLast? = some (some v, none)) :=
  c3_conteo_registros [some 10, some 20, some 30, some 40, some 50] (by decide)

/-- Claim C4: the conversion drops null cells anywhere in the row — deleting
a null cell at any position leaves the output unchanged — so with a null in
an intermediate month, later months' data slides into earlier slots: in the
concrete row `[some 1, none, some 2, some 3]` (January production, January
area missing, February production, February area), February's production
value `2` is emitted as January's area and February's area value `3` as
February's production. -/
theorem c4_nulos_en_cualquier_posicion :
    (∀ l1 l2 : List (Option ℚ), filaResultado (l1 ++ none :: l2) = filaResultado (l1 ++ l2)) ∧
    filaResultado [some 1, none, some 2, some 3] =
      [(claveProd "enero", 1), (claveArea "enero", 2), (claveProd "febrero", 3)] := by
  constructor
  · intro l1 l2
    unfold filaResultado
    congr 1
    simp [List.filterMap_append]
  · decide

/-- Claim C5: the parser scans the raw lines from the top and uses the
first line whose trimmed content starts with `PARAMETER,YEAR` as the table
header (processing continues from that index); if and only if no such line
exists, the parse fails with the missing-header failure instead of
returning a table. -/
theorem c5_encabezado (lineas : List String) (canton : String) :
    (leerArchivo lineas canton = Except.error FalloParse.encabezadoFaltante ↔
      ∀ l ∈ lineas, esEncabezado l = false) ∧
    (∀ i, indiceInicio lineas = some i →
      esEncabezado (lineas.getD i "") = true ∧
      (∀ j < i, esEncabezado (lineas.getD j "") = false) ∧
      leerArchivo lineas canton = procesaDesdeIndice lineas canton i) := by
  constructor
  · constructor
    · intro h
      rw [← buscaIndice_eq_none]
      cases hidx : indiceInicio lineas with
      | none => exact hidx
      | some i =>
        rw [leerArchivo, hidx] at h
        simp only [procesaDesdeIndice] at h
        split_ifs at h <;> simp_all
    · intro h
      have hidx : indiceInicio lineas = none := (buscaIndice_eq_none _ _).mpr h
      rw [leerArchivo, hidx]
  · intro i hi
    obtain ⟨h1, h2⟩ := buscaIndice_eq_some esEncabezado lineas i hi
    exact ⟨h1, h2, by rw [leerArchivo, hi]⟩

/-- Witness for claim C5: a file without the marker fails with the
missing-header failure. -/
theorem c5_testigo :
    leerArchivo ["solo preambulo", "sin tabla"] "X" =
      Except.error FalloParse.encabezadoFaltante :=
  (c5_encabezado ["solo preambulo", "sin tabla"] "X").1.mpr (by decide)

/-- Claim C6, as stated, is false on the code: the `df.empty` check runs
before the required-columns check, so the concrete file consisting of the
single line `"PARAMETER,YEARS"` — whose parsed table lacks `YEAR` and all
twelve month columns — fails with the empty-table failure, not with a
missing-columns failure naming the absent columns. -/
theorem c6_contraejemplo :
    ((encabezadoEn ["PARAMETER,YEARS"] 0).contains "YEAR") = false ∧
    faltantesEn ["PARAMETER,YEARS"] 0 ≠ [] ∧
    leerArchivo ["PARAMETER,YEARS"] "X" = Except.error FalloParse.tablaVacia ∧
    leerArchivo ["PARAMETER,YEARS"] "X" ≠
      Except.error (FalloParse.columnasFaltantes (faltantesEn ["PARAMETER,YEARS"] 0)) := by
  refine ⟨by decide, by decide, rfl, ?_⟩
  intro h
  rw [show leerArchivo ["PARAMETER,YEARS"] "X" = Except.error FalloParse.tablaVacia from rfl]
    at h
  simp at h

/-- Claim C6 (amended): a file whose parsed table has at least one data
row and lacks a required column fails with the missing-columns failure
naming the absent columns (a file with no data rows fails with the
empty-table failure first); and a file failing with missing columns never
crashes the batch loader — it is skipped, and the batch result over the
remaining files is unchanged. -/
theorem c6_columnas_enmendada :
    (∀ (lineas : List String) (canton : String) (i : ℕ),
      indiceInicio lineas = some i →
      filasEn lineas i ≠ [] →
      faltantesEn lineas i ≠ [] →
      leerArchivo lineas canton =
        Except.error (FalloParse.columnasFaltantes (faltantesEn lineas i))) ∧
    (∀ (pre post : List (String × List String)) (nombre : String)
      (contenido : List String) (faltantes : List String),
      esCsv nombre = true →
      leerArchivo contenido (splitextBase nombre) =
        Except.error (FalloParse.columnasFaltantes faltantes) →
      archivosCsv (pre ++ post) ≠ [] →
      procesarTodos (pre ++ (nombre, contenido) :: post) = procesarTodos (pre ++ post)) := by
  constructor
  · intro lineas canton i hi hfilas hfalt
    rw [leerArchivo, hi]
    simp only [procesaDesdeIndice, if_neg hfilas, if_neg hfalt]
  · intro pre post nombre contenido faltantes hcsv herr hne
    have hA : archivosCsv (pre ++ (nombre, contenido) :: post) =
        archivosCsv pre ++ (nombre, contenido) :: archivosCsv post := by
      simp [archivosCsv, List.filter_append, List.filter_cons, hcsv]
    have hA2 : archivosCsv (pre ++ post) = archivosCsv pre ++ archivosCsv post := by
      simp [archivosCsv, List.filter_append]
    have hT : tablasValidas (pre ++ (nombre, contenido) :: post) =
        tablasValidas (pre ++ post) := by
      rw [tablasValidas, tablasValidas, hA, hA2, List.filterMap_append, List.filterMap_append,
        List.filterMap_cons]
      simp [herr, Except.toOption]
    have h1 : archivosCsv (pre ++ (nombre, contenido) :: post) ≠ [] := by
      rw [hA]
      simp
    rw [procesarTodos, procesarTodos, if_neg h1, if_neg hne, hT]

/-- Witness for the amended claim C6: a one-row file missing `YEAR` and
the months fails with the missing-columns failure, and dropping a
failing file from a folder that still holds a `.csv` file leaves the
batch result unchanged. -/
theorem c6_testigo :
    leerArchivo ["PARAMETER,YEARX,JAN", "T2M,1,2"] "X" =
      Except.error
        (FalloParse.columnasFaltantes (faltantesEn ["PARAMETER,YEARX,JAN", "T2M,1,2"] 0)) :=
  c6_columnas_enmendada.1 ["PARAMETER,YEARX,JAN", "T2M,1,2"] "X" 0
    (by decide) (by decide) (by decide)

/-- Claim C7: the batch loader fails with the no-input-files error exactly
when the folder holds no `.csv` file; it fails with the no-valid-data
error exactly when there is a `.csv` file but every one fails to parse;
and otherwise it returns the concatenation of the successfully parsed
per-file tables, every row of which carries the canton derived from its
file's base name (extension stripped, then the parser's trim+uppercase). -/
theorem c7_lote (archivos : List (String × List String)) :
    (procesarTodos archivos = Except.error FalloBatch.sinArchivos ↔
      archivosCsv archivos = []) ∧
    (procesarTodos archivos = Except.error FalloBatch.sinDatos ↔
      (archivosCsv archivos ≠ [] ∧
        ∀ a ∈ archivosCsv archivos, (leerArchivo a.2 (splitextBase a.1)).toOption = none)) ∧
    (∀ t, procesarTodos archivos = Except.ok t →
      t = (tablasValidas archivos).flatten ∧
      ∀ fila ∈ t, ∃ a ∈ archivosCsv archivos, ∃ tabla,
        leerArchivo a.2 (splitextBase a.1) = Except.ok tabla ∧ fila ∈ tabla ∧
        fila.canton = normalizaCanton (splitextBase a.1)) := by
  refine ⟨?_, ?_, ?_⟩
  · rw [procesarTodos]
    split_ifs with h1 h2 <;> simp_all
  · rw [procesarTodos]
    split_ifs with h1 h2 <;>
      simp_all [tablasValidas, List.filterMap_eq_nil_iff]
  · intro t ht
    rw [procesarTodos] at ht
    split_ifs at ht with h1 h2
    simp only [Except.ok.injEq] at ht
    subst ht
    refine ⟨rfl, ?_⟩
    intro fila hf
    rw [List.mem_flatten] at hf
    obtain ⟨tabla, htab, hfila⟩ := hf
    rw [tablasValidas, List.mem_filterMap] at htab
    obtain ⟨a, ha, hopt⟩ := htab
    rw [toOption_eq_some] at hopt
    exact ⟨a, ha, tabla, hopt, hfila, leerArchivo_canton _ _ _ hopt fila hfila⟩

/-- Witness for claim C7: the demonstration folder parses successfully and
the returned table is the concatenation of its per-file tables, rows
tagged with the normalized base-name canton. -/
theorem c7_testigo :
    (tablasValidas archivosDemo).flatten = (tablasValidas archivosDemo).flatten ∧
    ∀ fila ∈ (tablasValidas archivosDemo).flatten, ∃ a ∈ archivosCsv archivosDemo, ∃ tabla,
      leerArchivo a.2 (splitextBase a.1) = Except.ok tabla ∧ fila ∈ tabla ∧
      fila.canton = normalizaCanton (splitextBase a.1) :=
  (c7_lote archivosDemo).2.2 ((tablasValidas archivosDemo).flatten)
    (by rw [procesarTodos, if_neg (by decide), if_neg (by decide)])

/-- Claim C8: for a well-formed atmospheric table — pairwise distinct
`(PARAMETER, YEAR)` rows, every month cell numeric — the melt followed by
the pivot reconstructs the original numeric matrix, ignoring row and
column order: for every row and month, the mean-aggregated pivot cell at
(that row's `YEAR`, that month, that row's `PARAMETER`) equals that cell's
numeric value, and the pivoted table contains a row carrying exactly that
value under the row's parameter column. -/
theorem c8_ida_y_vuelta (encabezado : List String) (filas : List (List String))
    (canton : String)
    (hdist : filas.Pairwise (fun f g =>
      ¬(celda encabezado f "PARAMETER" = celda encabezado g "PARAMETER" ∧
        celda encabezado f "YEAR" = celda encabezado g "YEAR")))
    (hnum : ∀ f ∈ filas, ∀ m ∈ mesesAtmos, (aNumerico (celda encabezado f m)).isSome = true) :
    ∀ f ∈ filas, ∀ m ∈ mesesAtmos,
      media (grupoVals (derretir encabezado filas)
          (celda encabezado f "YEAR") m (celda encabezado f "PARAMETER")) =
        aNumerico (celda encabezado f m) ∧
      ∃ filaP ∈ pivotear (derretir encabezado filas) (normalizaCanton canton),
        filaP.anio = celda encabezado f "YEAR" ∧ filaP.mes = m ∧
        (celda encabezado f "PARAMETER", aNumerico (celda encabezado f m)) ∈ filaP.celdas := by
  intro f hf m hm
  have hgrupo : grupoVals (derretir encabezado filas)
      (celda encabezado f "YEAR") m (celda encabezado f "PARAMETER") =
      (aNumerico (celda encabezado f m)).toList := by
    rw [derretir, grupoVals_flatMap,
      List.flatMap_congr (fun x _ => grupoVals_bloque encabezado filas x
        (celda encabezado f "YEAR") m (celda encabezado f "PARAMETER")),
      flatMap_si_unico mesesAtmos m _ (by decide) hm]
    exact filterMap_clave_unica encabezado _ _ _ filas hdist f hf rfl rfl
  have hsome := hnum f hf m hm
  have hmedia : media (grupoVals (derretir encabezado filas)
      (celda encabezado f "YEAR") m (celda encabezado f "PARAMETER")) =
      aNumerico (celda encabezado f m) := by
    rw [hgrupo]
    cases hv : aNumerico (celda encabezado f m) with
    | none => rw [hv] at hsome; simp at hsome
    | some q => simp [media, Option.toList, List.sum_singleton]
  refine ⟨hmedia, ?_⟩
  have hmem : medicionDe encabezado m f ∈ derretir encabezado filas :=
    List.mem_flatMap.mpr ⟨m, hm, List.mem_map_of_mem _ hf⟩
  have hpar : (celda encabezado f "YEAR", m) ∈ paresIndice (derretir encabezado filas) := by
    rw [paresIndice, List.mem_dedup]
    exact List.mem_map.mpr ⟨medicionDe encabezado m f, hmem, rfl⟩
  have hparam : celda encabezado f "PARAMETER" ∈ parametros (derretir encabezado filas) := by
    rw [parametros, List.mem_dedup]
    refine List.mem_map.mpr ⟨medicionDe encabezado m f, ?_, rfl⟩
    rw [List.mem_filter]
    exact ⟨hmem, by simpa [medicionDe] using hsome⟩
  refine ⟨_, List.mem_map.mpr ⟨(celda encabezado f "YEAR", m), hpar, rfl⟩, rfl, rfl, ?_⟩
  refine List.mem_map.mpr ⟨celda encabezado f "PARAMETER", hparam, ?_⟩
  simp [hmedia]

/-- Witness for claim C8 at the demonstration file's parsed table. -/
theorem c8_testigo :
    media (grupoVals (derretir (encabezadoEn lineasDemo 2) (filasEn lineasDemo 2))
        (celda (encabezadoEn lineasDemo 2) (divide "T2M,2020,1,2,3,4,5,6,7,8,9,10,11,12" ',')
          "YEAR") "JAN"
        (celda (encabezadoEn lineasDemo 2) (divide "T2M,2020,1,2,3,4,5,6,7,8,9,10,11,12" ',')
          "PARAMETER")) =
      aNumerico (celda (encabezadoEn lineasDemo 2)
        (divide "T2M,2020,1,2,3,4,5,6,7,8,9,10,11,12" ',') "JAN") ∧
    ∃ filaP ∈ pivotear (derretir (encabezadoEn lineasDemo 2) (filasEn lineasDemo 2))
        (normalizaCanton "cartago"),
      filaP.anio = celda (encabezadoEn lineasDemo 2)
        (divide "T2M,2020,1,2,3,4,5,6,7,8,9,10,11,12" ',') "YEAR" ∧
      filaP.mes = "JAN" ∧
      (celda (encabezadoEn lineasDemo 2)
          (divide "T2M,2020,1,2,3,4,5,6,7,8,9,10,11,12" ',') "PARAMETER",
        aNumerico (celda (encabezadoEn lineasDemo 2)
          (divide "T2M,2020,1,2,3,4,5,6,7,8,9,10,11,12" ',') "JAN")) ∈ filaP.celdas :=
  c8_ida_y_vuelta (encabezadoEn lineasDemo 2) (filasEn lineasDemo 2) "cartago"
    (by decide) (by decide)
    (divide "T2M,2020,1,2,3,4,5,6,7,8,9,10,11,12" ',') (by decide) "JAN" (by decide)

/-- Claim C9: for every non-empty rectangular merged table, the quality
report's completeness percentage equals `(1 - missing/(rows*cols)) * 100`
and lies in the interval `[0, 100]`. -/
theorem c9_completitud (t : TablaFinal)
    (hrect : ∀ fila ∈ t.filas, fila.length = t.columnas.length)
    (hfilas : 0 < totalFilas t) (hcols : 0 < totalColumnas t) :
    (generarReporteCalidad t).porcentajeCompletitud =
      (1 - ((valoresFaltantes t : ℚ) /
        ((totalFilas t : ℚ) * (totalColumnas t : ℚ)))) * 100 ∧
    0 ≤ (generarReporteCalidad t).porcentajeCompletitud ∧
    (generarReporteCalidad t).porcentajeCompletitud ≤ 100 := by
  have hle : valoresFaltantes t ≤ totalFilas t * totalColumnas t := by
    rw [valoresFaltantes, totalFilas, totalColumnas]
    have hpaso : ∀ fila ∈ t.filas, (fila.filter esNulo).length ≤ t.columnas.length := by
      intro fila hfila
      calc (fila.filter esNulo).length ≤ fila.length := List.length_filter_le _ _
        _ = t.columnas.length := hrect fila hfila
    calc (t.filas.map (fun fila => (fila.filter esNulo).length)).sum
        ≤ (t.filas.map (fun _ => t.columnas.length)).sum := List.sum_le_sum hpaso
      _ = t.filas.length * t.columnas.length := by
          simp [List.map_const', List.sum_replicate, smul_eq_mul]
  have hposQ : (0 : ℚ) < (totalFilas t : ℚ) * (totalColumnas t : ℚ) := by
    have h1 : (0 : ℚ) < (totalFilas t : ℚ) := by exact_mod_cast hfilas
    have h2 : (0 : ℚ) < (totalColumnas t : ℚ) := by exact_mod_cast hcols
    positivity
  have hleQ : ((valoresFaltantes t : ℚ)) ≤ (totalFilas t : ℚ) * (totalColumnas t : ℚ) := by
    exact_mod_cast hle
  have hfrac0 : (0 : ℚ) ≤ (valoresFaltantes t : ℚ) /
      ((totalFilas t : ℚ) * (totalColumnas t : ℚ)) :=
    div_nonneg (by positivity) (le_of_lt hposQ)
  have hfrac1 : (valoresFaltantes t : ℚ) /
      ((totalFilas t : ℚ) * (totalColumnas t : ℚ)) ≤ 1 :=
    (div_le_one hposQ).mpr hleQ
  refine ⟨rfl, ?_, ?_⟩
  · show (0 : ℚ) ≤ porcentajeCompletitud t
    rw [porcentajeCompletitud]
    nlinarith [hfrac1]
  · show porcentajeCompletitud t ≤ 100
    rw [porcentajeCompletitud]
    nlinarith [hfrac0]

/-- Witness for claim C9 at the one-row demonstration table. -/
theorem c9_testigo :
    (generarReporteCalidad tablaDemo).porcentajeCompletitud =
      (1 - ((valoresFaltantes tablaDemo : ℚ) /
        ((totalFilas tablaDemo : ℚ) * (totalColumnas tablaDemo : ℚ)))) * 100 ∧
    0 ≤ (generarReporteCalidad tablaDemo).porcentajeCompletitud ∧
    (generarReporteCalidad tablaDemo).porcentajeCompletitud ≤ 100 :=
  c9_completitud tablaDemo (by decide) (by decide) (by decide)
